import Mathlib

/-!
# Verification of the BlueALSA object-registration and discovery layer

Shallow embedding of `src/bluealsa.c` (bluez-alsa): the global process
configuration (`struct ba_config` initializer and `bluealsa_config_init`),
the D-Bus manager enumeration handler (`bluealsa_manager_method_call`),
the per-transport property handler (`bluealsa_transport_get_property`),
and the transport registration lifecycle
(`bluealsa_dbus_register_transport` / `bluealsa_dbus_unregister_transport`).

The GIO D-Bus substrate (`g_dbus_connection_register_object`,
`g_dbus_connection_unregister_object`, `g_dbus_connection_emit_signal`) is an
external collaborator; it is modelled as an explicit bus state: registration
returns a fresh non-zero handle on success and `0` on failure (a path that is
already bound is the modelled failure mode), unregistration removes the
binding, and emitted signals are collected in a trace.
-/

namespace BlueALSA

/-- A signal emitted on the bus by this layer: `PCMAdded` and `PCMRemoved`
on the `/org/bluealsa` manager object (source lines 194-196 and 204-206). -/
inductive DBusSignal where
  | pcmAdded (path : String)
  | pcmRemoved (path : String)
deriving DecidableEq

/-- State of the IPC substrate object table: a monotone counter from which
fresh registration ids are drawn, and the current (id, object path)
bindings. `g_dbus_connection_register_object` hands out non-zero ids on
success and `0` on failure. -/
structure Bus where
  nextId : Nat
  bound : List (Nat × String)
deriving DecidableEq

/-- Model of `g_dbus_connection_register_object`: binding a path that is
already bound fails (returns id `0`, bus unchanged); otherwise a fresh
non-zero id is returned and the binding is recorded. -/
def Bus.registerObject (bus : Bus) (path : String) : Nat × Bus :=
  if bus.bound.any (fun b => b.2 == path) then
    (0, bus)
  else
    (bus.nextId + 1, ⟨bus.nextId + 1, (bus.nextId + 1, path) :: bus.bound⟩)

/-- Model of `g_dbus_connection_unregister_object`: drop the binding with
the given registration id. -/
def Bus.unregisterObject (bus : Bus) (id : Nat) : Bus :=
  ⟨bus.nextId, bus.bound.filter (fun b => b.1 != id)⟩

/-- A path is currently reachable (bound to an object) on the bus. -/
def Bus.pathBound (bus : Bus) (path : String) : Bool :=
  bus.bound.any (fun b => b.2 == path)

/-- Modelled from the spec: the profile classifier bit marking a
control-only (RFCOMM) transport. The numeric values of
`enum ba_transport_profile` live in `ba-transport.h`, outside this
fragment; only this one distinguished bit is inspected by the code in
scope, so its exact value is immaterial. -/
def BA_TRANSPORT_PROFILE_RFCOMM : Nat := 64

/-- Modelled from the spec: a streaming-sink profile bit (distinct from the
RFCOMM bit), used only to build concrete scenario registries. -/
def BA_TRANSPORT_PROFILE_A2DP_SINK : Nat := 2

/-- The `type` member of `struct ba_transport`: only the `profile`
bitmask is read by the code in scope (`t->type.profile`, line 148). -/
structure BaTransportType where
  profile : Nat
deriving DecidableEq

/-- The fields of `struct ba_transport` read or written by this fragment:
the profile classifier, the derived D-Bus object path, and the exposure
handle (`ba_dbus_id`, zero when unbound). -/
structure BaTransport where
  type : BaTransportType
  ba_dbus_path : String
  ba_dbus_id : Nat
deriving DecidableEq

/-- A device (`struct ba_device`): its transport hash table, modelled as a
list whose order stands for the unspecified hash-iteration order. -/
structure BaDevice where
  transports : List BaTransport
deriving DecidableEq

/-- An adapter (`struct ba_adapter`): its device hash table, modelled as a
list whose order stands for the unspecified hash-iteration order. -/
structure BaAdapter where
  devices : List BaDevice
deriving DecidableEq

/-- Constant `HCI_MAX_DEV`: the bound of the adapter index scan in
`bluealsa_manager_method_call` (BlueZ constant). -/
def HCI_MAX_DEV : Nat := 16

/-- The registry of adapters, indexed by HCI adapter index. -/
structure Registry where
  adapters : Nat → Option BaAdapter

/-- Modelled from the spec: `ba_adapter_lookup` (defined in `ba-adapter.c`,
outside this fragment) — O(1) adapter lookup by index, `NULL` when absent. -/
def ba_adapter_lookup (r : Registry) (i : Nat) : Option BaAdapter :=
  r.adapters i

/-- Handler `bluealsa_manager_method_call` (lines 117-158): walk adapter indices
`0 .. HCI_MAX_DEV-1`, every device of each present adapter, every transport
of each device; skip transports whose profile has the RFCOMM bit set
(line 148-149); collect each remaining transport's `ba_dbus_path` into the
reply (the attached property map is always empty/NULL, so the reply is
modelled as the list of object paths). -/
def bluealsa_manager_method_call (r : Registry) : List String :=
  (List.range HCI_MAX_DEV).flatMap (fun i =>
    match ba_adapter_lookup r i with
    | none => []
    | some a =>
      a.devices.flatMap (fun d =>
        (d.transports.filter
          (fun t => t.type.profile &&& BA_TRANSPORT_PROFILE_RFCOMM == 0)).map
          (fun t => t.ba_dbus_path)))

/-- A GLib `GError` as produced by `g_error_new`: error domain, error code
and formatted message. -/
structure GError where
  domain : String
  code : String
  message : String
deriving DecidableEq

/-- Handler `bluealsa_transport_get_property` (lines 169-180): for every property
name, on any transport object, set `*error` to a
`G_DBUS_ERROR_INVALID_ARGS` "No such property" error and return `NULL`
(modelled as `none`). The `conn`, `sender`, `path`, `interface` and
`userdata` arguments are all ignored by the handler. -/
def bluealsa_transport_get_property (_conn _sender _path _interface property : String) :
    Option String × GError :=
  (none,
    ⟨"G_DBUS_ERROR", "G_DBUS_ERROR_INVALID_ARGS",
      "No such property \x27" ++ property ++ "\x27"⟩)

/-- Result of `bluealsa_dbus_register_transport`: the (possibly mutated)
transport, the bus state, the emitted signals, and the function's `int`
return value (`transport->ba_dbus_id`). -/
structure RegisterResult where
  transport : BaTransport
  bus : Bus
  signals : List DBusSignal
  ret : Nat
deriving DecidableEq

/-- Function `bluealsa_dbus_register_transport` (lines 184-199): bind the
transport's path on the bus and store the returned handle in
`transport->ba_dbus_id` (line 190); then emit the `PCMAdded` signal —
the source emits it unconditionally, without checking whether the bind
succeeded (lines 194-196); return `transport->ba_dbus_id` (line 198). -/
def bluealsa_dbus_register_transport (t : BaTransport) (bus : Bus) : RegisterResult :=
  let rb := bus.registerObject t.ba_dbus_path
  let t1 : BaTransport := { t with ba_dbus_id := rb.1 }
  { transport := t1
    bus := rb.2
    signals := [DBusSignal.pcmAdded t1.ba_dbus_path]
    ret := t1.ba_dbus_id }

/-- Result of `bluealsa_dbus_unregister_transport`: the (possibly mutated)
transport, the bus state and the emitted signals. -/
structure UnregisterResult where
  transport : BaTransport
  bus : Bus
  signals : List DBusSignal
deriving DecidableEq

/-- Function `bluealsa_dbus_unregister_transport` (lines 201-208): if
`transport->ba_dbus_id` is non-zero, unbind that id and emit `PCMRemoved`;
otherwise do nothing. The source never writes to the transport — in
particular `ba_dbus_id` is NOT reset to zero. -/
def bluealsa_dbus_unregister_transport (t : BaTransport) (bus : Bus) : UnregisterResult :=
  if t.ba_dbus_id ≠ 0 then
    { transport := t
      bus := bus.unregisterObject t.ba_dbus_id
      signals := [DBusSignal.pcmRemoved t.ba_dbus_path] }
  else
    { transport := t, bus := bus, signals := [] }

/-- One expose/retract operation on a transport. -/
inductive Op where
  | expose
  | retract
deriving DecidableEq

/-- One step of a sequence of expose/retract operations on a transport:
the new (transport, bus) state and the signals emitted by the step. -/
def stepOp (s : BaTransport × Bus) : Op → (BaTransport × Bus) × List DBusSignal
  | Op.expose =>
    let r := bluealsa_dbus_register_transport s.1 s.2
    ((r.transport, r.bus), r.signals)
  | Op.retract =>
    let r := bluealsa_dbus_unregister_transport s.1 s.2
    ((r.transport, r.bus), r.signals)

/-- The fields of `struct ba_config` that `bluealsa_config_init` writes,
plus the statically initialized `null_fd` and `gid_audio` (lines 39-42).
The GArray `hci_filter` and the codec-table pointer are modelled as
"was installed" flags; feature masks of the static initializer are composed
from header constants outside this fragment and are never read here. -/
structure BaConfig where
  hci_filter_allocated : Bool
  main_thread : Nat
  null_fd : Int
  gid_audio : Int
  a2dp_codecs_installed : Bool
deriving DecidableEq

/-- The static initializer of `struct ba_config` (lines 32-96), restricted
to the modelled fields: `null_fd = -1` (line 39) and `gid_audio = -1`
(line 42, "omit chown if audio group is not defined"). -/
def config_static_init : BaConfig :=
  { hci_filter_allocated := false
    main_thread := 0
    null_fd := -1
    gid_audio := -1
    a2dp_codecs_installed := false }

/-- The host environment observed by `bluealsa_config_init`: the result of
`open("/dev/null", ...)` (a file descriptor, `-1` on failure), the result
of `getgrnam("audio")` (`none` when the group does not exist), and the
calling thread's identity. -/
structure InitEnv where
  open_dev_null : Int
  getgrnam_audio : Option Int
  pthread_self : Nat

/-- Function `bluealsa_config_init` (lines 98-115): allocate the HCI filter array,
record the calling thread, store the `open("/dev/null")` result in
`null_fd` (unchecked, line 106), overwrite `gid_audio` only when
`getgrnam("audio")` finds the group (lines 109-110), install the codec
table, and return `0` — the source returns `0` unconditionally
(line 114). -/
def bluealsa_config_init (env : InitEnv) (config : BaConfig) : BaConfig × Int :=
  let config := { config with hci_filter_allocated := true }
  let config := { config with main_thread := env.pthread_self }
  let config := { config with null_fd := env.open_dev_null }
  let config :=
    match env.getgrnam_audio with
    | some gid => { config with gid_audio := gid }
    | none => config
  let config := { config with a2dp_codecs_installed := true }
  (config, 0)

/-- A transport of registry state `r`: it sits in some device of some
adapter reachable by the enumeration scan. -/
def TransportInRegistry (r : Registry) (t : BaTransport) : Prop :=
  ∃ i a d, i < HCI_MAX_DEV ∧ ba_adapter_lookup r i = some a ∧
    d ∈ a.devices ∧ t ∈ d.transports

/-- All transports of an adapter, across its devices, in hash-iteration
order. -/
def adapterTransports (a : BaAdapter) : List BaTransport :=
  a.devices.flatMap (fun d => d.transports)

/-- Two optional adapters hold the same transports up to iteration order. -/
def OptPerm : Option BaAdapter → Option BaAdapter → Prop
  | none, none => True
  | some a1, some a2 => (adapterTransports a1).Perm (adapterTransports a2)
  | _, _ => False

instance : (o1 o2 : Option BaAdapter) → Decidable (OptPerm o1 o2)
  | none, none => isTrue trivial
  | some _, some _ => inferInstanceAs (Decidable (List.Perm _ _))
  | none, some _ => isFalse (fun h => h)
  | some _, none => isFalse (fun h => h)

/-- Two registry states expose the same transports at every adapter index,
up to the unspecified hash-iteration order (this is what "no intervening
mutation" preserves between two manager calls). -/
def SameRegistryContents (r1 r2 : Registry) : Prop :=
  ∀ i, i < HCI_MAX_DEV → OptPerm (ba_adapter_lookup r1 i) (ba_adapter_lookup r2 i)

instance (r1 r2 : Registry) : Decidable (SameRegistryContents r1 r2) :=
  inferInstanceAs (Decidable (∀ i, i < HCI_MAX_DEV →
    OptPerm (ba_adapter_lookup r1 i) (ba_adapter_lookup r2 i)))

/-! ## Concrete scenario states -/

/-- A streaming-sink transport of device `AA:BB:CC:DD:EE:FF` on adapter 0,
not yet exposed. -/
def demo_sink : BaTransport :=
  ⟨⟨BA_TRANSPORT_PROFILE_A2DP_SINK⟩,
    "/org/bluealsa/hci0/dev_AA_BB_CC_DD_EE_FF/a2dpsink", 0⟩

/-- A control-only (RFCOMM) transport of the same device, not yet
exposed. -/
def demo_ctl : BaTransport :=
  ⟨⟨BA_TRANSPORT_PROFILE_RFCOMM⟩,
    "/org/bluealsa/hci0/dev_AA_BB_CC_DD_EE_FF/rfcomm", 0⟩

/-- An empty bus. -/
def demo_bus : Bus := ⟨0, []⟩

/-- The bus and transport state after successfully exposing
`demo_sink` on the empty bus. -/
def demo_exposed : RegisterResult :=
  bluealsa_dbus_register_transport demo_sink demo_bus

/-- Registry: adapter 0 with one device holding the streaming-sink and the
control-only transport. -/
def demo_registry : Registry :=
  ⟨fun i => if i = 0 then some ⟨[⟨[demo_sink, demo_ctl]⟩]⟩ else none⟩

/-- The same registry with the device's transports in the opposite
iteration order. -/
def demo_registry_swapped : Registry :=
  ⟨fun i => if i = 0 then some ⟨[⟨[demo_ctl, demo_sink]⟩]⟩ else none⟩

/-- The control-only transport after it has been exposed on the empty
bus. -/
def demo_ctl_exposed : BaTransport :=
  (bluealsa_dbus_register_transport demo_ctl demo_bus).transport

/-- State `demo_registry` after the control-only transport has been exposed. -/
def demo_registry_after_expose : Registry :=
  ⟨fun i => if i = 0 then some ⟨[⟨[demo_sink, demo_ctl_exposed]⟩]⟩ else none⟩

/-! ## Helper lemmas -/

/-- Function `bluealsa_dbus_unregister_transport` performs no write to the
transport, in either branch. -/
theorem unregister_keeps_transport (t : BaTransport) (bus : Bus) :
    (bluealsa_dbus_unregister_transport t bus).transport = t := by
  unfold bluealsa_dbus_unregister_transport
  split <;> rfl

/-- Distributing a filter-then-map over the flatMap of a device list. -/
theorem flatMap_filter_map (ds : List BaDevice) (P : BaTransport → Bool)
    (f : BaTransport → String) :
    ds.flatMap (fun d => (d.transports.filter P).map f)
      = ((ds.flatMap (fun d => d.transports)).filter P).map f := by
  induction ds with
  | nil => rfl
  | cons d ds ih => simp [List.flatMap_cons, List.filter_append, ih]

/-! ## Claim theorems -/

/-- Claim C6, counterexample: with the discard-sink acquisition failing
(`open` returns `-1`), `bluealsa_config_init` still returns `0`, not a
non-zero status — refuting "returns a non-zero status whenever a resource
acquisition it performs fails". -/
theorem config_init_returns_zero_on_failed_open :
    (bluealsa_config_init ⟨-1, none, 0⟩ config_static_init).1.null_fd = -1 ∧
    (bluealsa_config_init ⟨-1, none, 0⟩ config_static_init).2 = 0 := by
  constructor <;> rfl

/-- Claim C6, amended: `bluealsa_config_init` always returns `0`
(success), for every host environment and prior configuration — even when
the discard-sink descriptor cannot be acquired; the failed acquisition is
merely recorded in `null_fd` (the `open` result is stored unchecked). -/
theorem config_init_always_succeeds (env : InitEnv) (config : BaConfig) :
    (bluealsa_config_init env config).2 = 0 ∧
    (bluealsa_config_init env config).1.null_fd = env.open_dev_null := by
  unfold bluealsa_config_init
  cases env.getgrnam_audio <;> exact ⟨rfl, rfl⟩

/-- Claim C7 (confirmed): when the "audio" group does not exist on the
host (`getgrnam` returns `NULL`), `bluealsa_config_init` leaves
`gid_audio` at the "no group restriction" sentinel `-1` of the static
initializer, and still reports success (`0`). -/
theorem config_init_no_audio_group (env : InitEnv)
    (h : env.getgrnam_audio = none) :
    (bluealsa_config_init env config_static_init).1.gid_audio = -1 ∧
    (bluealsa_config_init env config_static_init).2 = 0 := by
  unfold bluealsa_config_init
  rw [h]
  exact ⟨rfl, rfl⟩

/-- Witness for C7: a concrete host with a working `/dev/null` (fd 3) but
no "audio" group. -/
theorem config_init_no_audio_group_witness :
    (bluealsa_config_init ⟨3, none, 7⟩ config_static_init).1.gid_audio = -1 ∧
    (bluealsa_config_init ⟨3, none, 7⟩ config_static_init).2 = 0 :=
  config_init_no_audio_group ⟨3, none, 7⟩ rfl

/-- Claim C8 (confirmed): for every property name — the empty string and
manager-interface member names included — and for every connection,
sender, path and interface, `bluealsa_transport_get_property` returns a
`NULL` value together with a `G_DBUS_ERROR_INVALID_ARGS` "No such
property" error naming the requested property. -/
theorem transport_get_property_always_errors
    (conn sender path interface property : String) :
    (bluealsa_transport_get_property conn sender path interface property).1 = none ∧
    (bluealsa_transport_get_property conn sender path interface property).2 =
      ⟨"G_DBUS_ERROR", "G_DBUS_ERROR_INVALID_ARGS",
        "No such property \x27" ++ property ++ "\x27"⟩ :=
  ⟨rfl, rfl⟩

/-- Claim C10 (confirmed): `bluealsa_dbus_unregister_transport` never
writes to the transport it is given — every field, the exposure handle
`ba_dbus_id` and the path `ba_dbus_path` included, holds exactly its prior
value after the call, whether or not the handle was non-zero on entry. -/
theorem unregister_transport_frame (t : BaTransport) (bus : Bus) :
    (bluealsa_dbus_unregister_transport t bus).transport = t :=
  unregister_keeps_transport t bus

/-- Claim C1, counterexample: expose `demo_sink` on the empty bus (the
bind succeeds, returning handle 1), then retract it. The handle is still
non-zero after the retract (the source never clears `ba_dbus_id`), and the
path is no longer bound on the bus — refuting both "zero immediately after
retract" and "non-zero iff currently bound". -/
theorem retract_leaves_handle_nonzero :
    demo_exposed.ret ≠ 0 ∧
    (bluealsa_dbus_unregister_transport demo_exposed.transport
        demo_exposed.bus).transport.ba_dbus_id ≠ 0 ∧
    (bluealsa_dbus_unregister_transport demo_exposed.transport
        demo_exposed.bus).bus.pathBound demo_sink.ba_dbus_path = false := by
  refine ⟨by decide, by decide, by decide⟩

/-- Claim C1, amended: after a successful expose (non-zero return) the
handle is non-zero; a retract leaves the handle exactly as it was (it is
never cleared to zero); and in any sequence of expose/retract steps, a
step taking the handle from zero to non-zero is an expose whose bind
succeeded. The biconditional "non-zero iff currently bound" does not hold
after a retract of an exposed transport. -/
theorem handle_lifecycle (t : BaTransport) (bus : Bus) :
    ((bluealsa_dbus_register_transport t bus).ret ≠ 0 →
      (bluealsa_dbus_register_transport t bus).transport.ba_dbus_id ≠ 0) ∧
    (bluealsa_dbus_unregister_transport t bus).transport.ba_dbus_id = t.ba_dbus_id ∧
    (∀ op : Op, t.ba_dbus_id = 0 → (stepOp (t, bus) op).1.1.ba_dbus_id ≠ 0 →
      op = Op.expose ∧ (bluealsa_dbus_register_transport t bus).ret ≠ 0) := by
  refine ⟨fun h => h, ?_, ?_⟩
  · rw [unregister_keeps_transport]
  · intro op h0 hne
    cases op with
    | expose => exact ⟨rfl, hne⟩
    | retract =>
      exact absurd (by simpa [stepOp, unregister_keeps_transport] using h0) hne

/-- Witness for the amended C1 at the concrete scenario: exposing
`demo_sink` on the empty bus succeeds and yields a non-zero handle, and
that very step is a zero-to-non-zero transition caused by a successful
expose. -/
theorem handle_lifecycle_witness :
    demo_exposed.transport.ba_dbus_id ≠ 0 ∧
    (Op.expose = Op.expose ∧ demo_exposed.ret ≠ 0) :=
  ⟨(handle_lifecycle demo_sink demo_bus).1 (by decide),
    (handle_lifecycle demo_sink demo_bus).2.2 Op.expose (by decide) (by decide)⟩

/-- Claim C2, counterexample: retract the exposed `demo_sink` twice in a
row. Because the first retract does not clear `ba_dbus_id`, the second
call repeats the unbind-and-signal branch: the two calls emit two
`PCMRemoved` signals in total — refuting "at most one signal in total". -/
theorem double_retract_two_signals :
    ((bluealsa_dbus_unregister_transport demo_exposed.transport
        demo_exposed.bus).signals ++
      (bluealsa_dbus_unregister_transport
        (bluealsa_dbus_unregister_transport demo_exposed.transport
          demo_exposed.bus).transport
        (bluealsa_dbus_unregister_transport demo_exposed.transport
          demo_exposed.bus).bus).signals).length = 2 := by
  decide

/-- Claim C2, amended: retract with a zero handle is a no-op (no unbind,
no signal), so two retracts starting from a zero handle emit no signal at
all; but when the handle is non-zero, each of two consecutive retracts
emits one `PCMRemoved` signal (the handle is not cleared in between), so
"at most one signal in total" holds only in the zero-handle case. -/
theorem retract_idempotence (t : BaTransport) (bus : Bus) :
    (t.ba_dbus_id = 0 →
      bluealsa_dbus_unregister_transport t bus = ⟨t, bus, []⟩) ∧
    (t.ba_dbus_id ≠ 0 →
      (bluealsa_dbus_unregister_transport t bus).signals =
        [DBusSignal.pcmRemoved t.ba_dbus_path] ∧
      (bluealsa_dbus_unregister_transport
          (bluealsa_dbus_unregister_transport t bus).transport
          (bluealsa_dbus_unregister_transport t bus).bus).signals =
        [DBusSignal.pcmRemoved t.ba_dbus_path]) := by
  constructor
  · intro h0
    unfold bluealsa_dbus_unregister_transport
    simp [h0]
  · intro hne
    have h1 : (bluealsa_dbus_unregister_transport t bus).signals =
        [DBusSignal.pcmRemoved t.ba_dbus_path] := by
      unfold bluealsa_dbus_unregister_transport
      simp [hne]
    refine ⟨h1, ?_⟩
    rw [unregister_keeps_transport]
    unfold bluealsa_dbus_unregister_transport
    simp [hne]

/-- Witness for the amended C2: at a zero-handle transport
(`demo_sink`, never exposed) the retract is a no-op; at the exposed
transport each of the two retracts emits one `PCMRemoved` signal. -/
theorem retract_idempotence_witness :
    bluealsa_dbus_unregister_transport demo_sink demo_bus =
      ⟨demo_sink, demo_bus, []⟩ ∧
    ((bluealsa_dbus_unregister_transport demo_exposed.transport
        demo_exposed.bus).signals =
      [DBusSignal.pcmRemoved demo_exposed.transport.ba_dbus_path] ∧
    (bluealsa_dbus_unregister_transport
        (bluealsa_dbus_unregister_transport demo_exposed.transport
          demo_exposed.bus).transport
        (bluealsa_dbus_unregister_transport demo_exposed.transport
          demo_exposed.bus).bus).signals =
      [DBusSignal.pcmRemoved demo_exposed.transport.ba_dbus_path]) :=
  ⟨(retract_idempotence demo_sink demo_bus).1 (by decide),
    (retract_idempotence demo_exposed.transport demo_exposed.bus).2 (by decide)⟩

/-- Claim C3, counterexample: expose a transport whose path is already
bound on the bus. The bind fails (return value 0, handle stays zero), yet
the `PCMAdded` notification is still emitted — refuting "when the bind
fails no notification is emitted". -/
theorem failed_expose_still_signals :
    (bluealsa_dbus_register_transport demo_sink
        ⟨1, [(1, demo_sink.ba_dbus_path)]⟩).ret = 0 ∧
    (bluealsa_dbus_register_transport demo_sink
        ⟨1, [(1, demo_sink.ba_dbus_path)]⟩).signals =
      [DBusSignal.pcmAdded demo_sink.ba_dbus_path] := by
  refine ⟨by decide, by decide⟩

/-- Claim C3, amended: every expose call emits the `PCMAdded` notification
exactly once, after the bind attempt, whether or not the bind succeeded;
when the bind fails (return value 0) the handle stays zero and the bus is
unchanged (the Transport remains unexposed), but the notification is
emitted all the same. -/
theorem expose_signal_contract (t : BaTransport) (bus : Bus) :
    (bluealsa_dbus_register_transport t bus).signals =
      [DBusSignal.pcmAdded t.ba_dbus_path] ∧
    ((bluealsa_dbus_register_transport t bus).ret = 0 →
      (bluealsa_dbus_register_transport t bus).transport.ba_dbus_id = 0 ∧
      (bluealsa_dbus_register_transport t bus).bus = bus) := by
  constructor
  · rfl
  · intro h0
    unfold bluealsa_dbus_register_transport at h0 ⊢
    unfold Bus.registerObject at h0 ⊢
    split at h0 <;> simp_all

/-- Witness for the amended C3: the duplicate-path scenario, with the
bind-failure hypothesis discharged concretely. -/
theorem expose_signal_contract_witness :
    (bluealsa_dbus_register_transport demo_sink
        ⟨1, [(1, demo_sink.ba_dbus_path)]⟩).transport.ba_dbus_id = 0 ∧
    (bluealsa_dbus_register_transport demo_sink
        ⟨1, [(1, demo_sink.ba_dbus_path)]⟩).bus =
      ⟨1, [(1, demo_sink.ba_dbus_path)]⟩ :=
  (expose_signal_contract demo_sink ⟨1, [(1, demo_sink.ba_dbus_path)]⟩).2 (by decide)

/-- Claim C4 (confirmed): every path in the manager enumeration reply
belongs to a transport of the registry whose profile classifier does NOT
have the control-only (RFCOMM) bit set — control-only transports never
appear in the reply, for any registry state. -/
theorem enumeration_no_control_only (r : Registry) (p : String)
    (hp : p ∈ bluealsa_manager_method_call r) :
    ∃ t, TransportInRegistry r t ∧
      t.type.profile &&& BA_TRANSPORT_PROFILE_RFCOMM = 0 ∧
      t.ba_dbus_path = p := by
  simp only [bluealsa_manager_method_call, List.mem_flatMap, List.mem_range] at hp
  obtain ⟨i, hi, hpi⟩ := hp
  cases ha : ba_adapter_lookup r i with
  | none => rw [ha] at hpi; exact absurd hpi (List.not_mem_nil p)
  | some a =>
    rw [ha] at hpi
    simp only [List.mem_flatMap, List.mem_map, List.mem_filter] at hpi
    obtain ⟨d, hd, t, ⟨ht, hprof⟩, hpt⟩ := hpi
    exact ⟨t, ⟨i, a, d, hi, ha, hd, ht⟩, by simpa using hprof, hpt⟩

/-- Witness for C4: in the concrete two-transport registry, the
streaming-sink's path is in the reply, and it indeed comes from a
non-control-only transport. -/
theorem enumeration_no_control_only_witness :
    ∃ t, TransportInRegistry demo_registry t ∧
      t.type.profile &&& BA_TRANSPORT_PROFILE_RFCOMM = 0 ∧
      t.ba_dbus_path = demo_sink.ba_dbus_path :=
  enumeration_no_control_only demo_registry demo_sink.ba_dbus_path (by decide)

/-- Claim C5 (confirmed): in the registry where adapter 0 has one device
holding exactly one streaming-sink and one control-only transport, the
enumeration returns exactly one path — the streaming-sink's; and after
exposing the control-only transport the enumeration still returns exactly
that one path. -/
theorem enumeration_scenario :
    bluealsa_manager_method_call demo_registry = [demo_sink.ba_dbus_path] ∧
    bluealsa_manager_method_call demo_registry_after_expose =
      [demo_sink.ba_dbus_path] := by
  refine ⟨by decide, by decide⟩

/-- Claim C9 (confirmed): two enumeration calls with no intervening
registry mutation — i.e. over registry states holding the same transports
at every adapter index, possibly presented in a different hash-iteration
order — return the same set of paths (the replies are permutations of one
another, so membership coincides). -/
theorem enumeration_deterministic_set (r1 r2 : Registry)
    (h : SameRegistryContents r1 r2) (p : String) :
    p ∈ bluealsa_manager_method_call r1 ↔ p ∈ bluealsa_manager_method_call r2 := by
  refine List.Perm.mem_iff ?_
  unfold bluealsa_manager_method_call
  refine List.Perm.flatMap_left _ (fun i hi => ?_)
  rw [List.mem_range] at hi
  have hoi := h i hi
  cases h1 : ba_adapter_lookup r1 i with
  | none =>
    cases h2 : ba_adapter_lookup r2 i with
    | none => exact List.Perm.refl _
    | some a2 => rw [h1, h2] at hoi; exact absurd hoi (fun hf => hf)
  | some a1 =>
    cases h2 : ba_adapter_lookup r2 i with
    | none => rw [h1, h2] at hoi; exact absurd hoi (fun hf => hf)
    | some a2 =>
      rw [h1, h2] at hoi
      have hperm : (adapterTransports a1).Perm (adapterTransports a2) := hoi
      simp only [h1, h2]
      rw [flatMap_filter_map, flatMap_filter_map]
      exact (hperm.filter _).map _

/-- Witness for C9: the concrete registry and its transport-order-swapped
presentation satisfy the no-mutation hypothesis, and the streaming-sink's
path is in one reply iff it is in the other. -/
theorem enumeration_deterministic_set_witness :
    demo_sink.ba_dbus_path ∈ bluealsa_manager_method_call demo_registry ↔
    demo_sink.ba_dbus_path ∈ bluealsa_manager_method_call demo_registry_swapped :=
  enumeration_deterministic_set demo_registry demo_registry_swapped
    (by decide) demo_sink.ba_dbus_path

end BlueALSA
